import Mathlib

/-!
# A verification development for the `realms` graphics library

This file gives a shallow embedding, in Lean, of the parts of the `realms`
Rust library (a thin wrapper over GLFW / OpenGL / minifb) that its
specification makes claims about, together with theorems settling those
claims.

Modelling conventions:
* Rust `u8`/`usize` values are `Nat`, `i32`/`GLint` values are `Int`.
  Where a cast can overflow or panic, the model makes the panic explicit
  (`Option`, or an explicit `Bool` flag) or the theorem carries a bound
  hypothesis keeping the model inside the overflow-free region.
* A Rust panic is modelled as `Option.none` (or a `false` completion flag
  when the calls made before the panic matter).
* Calls into the graphics driver (OpenGL) are modelled by an explicit
  oracle structure carrying the values the driver writes back, and by
  returning the list of driver calls a function makes as plain data.
* `f32`/`f64` arithmetic is modelled over `ℚ`; every theorem below only
  exercises points at which IEEE arithmetic is exact (integer-valued
  coordinates, blend weights `0` and `1`), as noted at each definition.
-/

namespace Realms

/-- The `Color` struct of `src/data.rs`: four `u8` channels `r`, `g`, `b`, `a`
(modelled as `Nat`; theorems carry `< 256` bounds where channel values
matter). -/
structure Color where
  r : Nat
  g : Nat
  b : Nat
  a : Nat
deriving DecidableEq

/-- `Color::BLACK` from `src/data.rs`. -/
def Color.BLACK : Color := { r := 0, g := 0, b := 0, a := 255 }

/-- `Color::rgba` from `src/data.rs`. -/
def Color.rgba (r g b a : Nat) : Color := { r := r, g := g, b := b, a := a }

/-- `Color::rgb` from `src/data.rs`: alpha defaults to 255. -/
def Color.rgb (r g b : Nat) : Color := Color.rgba r g b 255

/-- Rust's saturating `as u8` cast applied to a (finite, non-NaN) `f64`
value, on the exact-rational model of `f64`: values below `0` clamp to `0`,
values of `255` and above clamp to `255`, and the fractional part is
discarded (truncation toward zero; for non-negative values this is the
floor). -/
def f64ToU8 (q : ℚ) : Nat :=
  if q < 0 then 0 else min 255 q.floor.toNat

/-- `Color::add_layer` from `src/data.rs`.  Source shape: if `other.a == 255`
then `*self = other.clone()` (with **no** early return), then
`other_alpha = other.a as f64 / 255.0`, `old_alpha = 1.0 - other_alpha`, and
each of `r`, `g`, `b` (but not `a`) is reassigned to
`(self.c as f64 * old_alpha + other.c as f64 * other_alpha) as u8`.
The `f64` arithmetic is modelled over `ℚ`; the theorems below only evaluate
it at `other.a = 255`, where `other_alpha = 1.0` and `old_alpha = 0.0` and
IEEE `f64` arithmetic is exact, or read the untouched `a` channel. -/
def Color.addLayer (self other : Color) : Color :=
  let s1 := if other.a = 255 then other else self
  let otherAlpha : ℚ := (other.a : ℚ) / 255
  let oldAlpha : ℚ := 1 - otherAlpha
  { r := f64ToU8 ((s1.r : ℚ) * oldAlpha + (other.r : ℚ) * otherAlpha)
    g := f64ToU8 ((s1.g : ℚ) * oldAlpha + (other.g : ℚ) * otherAlpha)
    b := f64ToU8 ((s1.b : ℚ) * oldAlpha + (other.b : ℚ) * otherAlpha)
    a := s1.a }

/-- The `Texture` struct of `src/component.rs`: `width`, `height` (`usize`)
and a flat row-major `Vec<Color>` of pixels.  All three fields are `pub` in
the source, so a `Texture` whose `pixels` length disagrees with
`width * height` is constructible. -/
structure Texture where
  width : Nat
  height : Nat
  pixels : List Color
deriving DecidableEq

/-- `Texture::get` from `src/component.rs`:
`self.pixels.get(y * self.width + x)`, panicking (`none`) exactly when the
flat index is out of bounds of the pixel vector. -/
def Texture.get (t : Texture) (x y : Nat) : Option Color :=
  t.pixels.get? (y * t.width + x)

/-- `Texture::load` from `src/component.rs`.  The external image decoder
(`ril`) is modelled as an oracle `img : Nat → Nat → Color` giving the pixel
of the decoded-and-resized image at each coordinate (the source reads
`ril_image.get_pixel(x, y)`).  The source pushes, for `y in 0..height` and
then `x in 0..width`, the pixel `img x y`, so `pixels` is the row-major list
of `width * height` entries. -/
def Texture.load (img : Nat → Nat → Color) (width height : Nat) : Texture :=
  { width := width
    height := height
    pixels := (List.range height).flatMap fun y =>
      (List.range width).map fun x => img x y }

/-- One `window.set_pixel(x, y, color)` call, recorded as data.  The source
passes `f32` coordinates; all claims below are settled at integer-valued
coordinates, where `f32` arithmetic is exact, so the coordinates are
modelled as `Int`. -/
structure PixelWrite where
  x : Int
  y : Int
  color : Color
deriving DecidableEq

/-- Rust's `0..n` range over `i32`, as a list of `Int` (empty when
`n ≤ 0`). -/
def intRange (n : Int) : List Int :=
  (List.range n.toNat).map Int.ofNat

/-- The `Rect` struct of `src/rect.rs` (position, size, color).  `pos` and
`size` are `(f32, f32)` in the source; they are modelled at integer values
(`size` enters the draw loop only through its truncating `as i32` cast, and
`pos` is only added to small integers, both exact on integer-valued
floats). -/
structure Rect where
  pos : Int × Int
  size : Int × Int
  color : Color
deriving DecidableEq

/-- `Rect::draw` (`impl NodeDraw for Rect`, `src/rect.rs`), as the list of
`set_pixel` calls it makes.  Source shape, verbatim: for
`y in 0..self.size.1 as i32` and `x in 0..self.size.0 as i32`, skip
(`continue`) when `x < 0 || y < 0 || x >= window_width || y >= window_height`
— note the test is on the **loop offsets** `x`, `y`, not on the screen
coordinates — and otherwise call
`window.set_pixel(self.pos.0 + x, self.pos.1 + y, self.color.clone())`. -/
def rectDrawCalls (r : Rect) (windowWidth windowHeight : Int) : List PixelWrite :=
  (intRange r.size.2).flatMap fun y =>
    (intRange r.size.1).filterMap fun x =>
      if x < 0 ∨ y < 0 ∨ x ≥ windowWidth ∨ y ≥ windowHeight then none
      else some { x := r.pos.1 + x, y := r.pos.2 + y, color := r.color }

/-- The `Sprite` struct of `src/sprite.rs`: a position (`Vec2f`, i.e. a pair
of `f32`, modelled at integer values) and a texture (the `&Texture` is
modelled by value). -/
structure Sprite where
  pos : Int × Int
  texture : Texture

/-- Runs `f` left to right over `l`, collecting the results, and aborting
with `none` (a panic) at the first `none`. -/
def writesAux (l : List (Nat × Nat)) (f : Nat × Nat → Option PixelWrite) :
    Option (List PixelWrite) :=
  match l with
  | [] => some []
  | p :: ps =>
    match f p with
    | none => none
    | some w =>
      match writesAux ps f with
      | none => none
      | some ws => some (w :: ws)

/-- The texel traversal order of `Sprite::draw`: `x in 0..width` outer,
`y in 0..height` inner. -/
def texelList (w h : Nat) : List (Nat × Nat) :=
  (List.range w).flatMap fun x => (List.range h).map fun y => (x, y)

/-- `Sprite::draw` (`impl NodeDraw for Sprite`, `src/sprite.rs`), as the list
of `set_pixel` calls it makes: for `x in 0..width`, `y in 0..height` it calls
`window.set_pixel(x as f32 + self.pos.x, y as f32 + self.pos.y,
self.texture.get(x, y).clone())`; `Texture::get` panics (`none`) when out of
bounds, which aborts the whole draw. -/
def spriteDrawCalls (s : Sprite) : Option (List PixelWrite) :=
  writesAux (texelList s.texture.width s.texture.height) fun p =>
    (s.texture.get p.1 p.2).map fun c =>
      { x := Int.ofNat p.1 + s.pos.1, y := Int.ofNat p.2 + s.pos.2, color := c }

/-- The write list the specification describes for `Sprite::draw`: one write
per texel `(x, y)`, at screen position `(x + pos.x, y + pos.y)`, carrying the
texture pixel at `(x, y)`.  (Stated with `getD`; the refinement theorem only
relates it to `spriteDrawCalls` on textures whose pixel vector really has
`width * height` entries, where `get` never falls back to the default.) -/
def spriteWritesList (s : Sprite) : List PixelWrite :=
  (List.range s.texture.width).flatMap fun x =>
    (List.range s.texture.height).map fun y =>
      { x := Int.ofNat x + s.pos.1, y := Int.ofNat y + s.pos.2,
        color := (s.texture.get x y).getD Color.BLACK }

/-- The `Pixel` struct of `src/pixel.rs`: a position (pair of `f32`,
modelled over `ℚ`) and a color. -/
structure Pixel where
  pos : ℚ × ℚ
  color : Color

/-- `Pixel::new` from `src/pixel.rs`. -/
def Pixel.new (pos : ℚ × ℚ) (color : Color) : Pixel :=
  { pos := pos, color := color }

/-- `NodePosition::get_pos` for `Pixel`. -/
def Pixel.getPos (p : Pixel) : ℚ × ℚ := p.pos

/-- `NodePosition::set_pos` for `Pixel`. -/
def Pixel.setPos (p : Pixel) (newPos : ℚ × ℚ) : Pixel :=
  { p with pos := newPos }

/-- `NodePosition::change_pos` for `Pixel` (`f32` addition, modelled over
`ℚ`; the size invariant proved below does not depend on the position
values). -/
def Pixel.changePos (p : Pixel) (delta : ℚ × ℚ) : Pixel :=
  { p with pos := (p.pos.1 + delta.1, p.pos.2 + delta.2) }

/-- `NodeSize::get_size` for `Pixel` (`src/pixel.rs`): always `(1.0, 1.0)`. -/
def Pixel.getSize (_ : Pixel) : ℚ × ℚ := (1, 1)

/-- `NodeSize::set_size` for `Pixel` (`src/pixel.rs`): unconditionally
`panic!`, modelled as `none`. -/
def Pixel.setSize (_ : Pixel) (_ : ℚ × ℚ) : Option Pixel := none

/-- `NodeSize::change_size` for `Pixel` (`src/pixel.rs`): unconditionally
`panic!`, modelled as `none`. -/
def Pixel.changeSize (_ : Pixel) (_ : ℚ × ℚ) : Option Pixel := none

/-- `NodeColor::set_color` for `Pixel`. -/
def Pixel.setColor (p : Pixel) (c : Color) : Pixel :=
  { p with color := c }

/-- The mutating operations a caller can perform on a `Pixel` through the
node traits of `src/node.rs`. -/
inductive PixelOp where
  | setPos (newPos : ℚ × ℚ)
  | changePos (delta : ℚ × ℚ)
  | setColor (c : Color)
  | setSize (newSize : ℚ × ℚ)
  | changeSize (delta : ℚ × ℚ)

/-- Applies one trait operation to a `Pixel`; `none` is a panic. -/
def Pixel.applyOp (p : Pixel) : PixelOp → Option Pixel
  | .setPos q => some (p.setPos q)
  | .changePos d => some (p.changePos d)
  | .setColor c => some (p.setColor c)
  | .setSize s => p.setSize s
  | .changeSize d => p.changeSize d

/-- Applies a sequence of trait operations to a `Pixel`; `none` as soon as
one of them panics. -/
def Pixel.runOps (p : Pixel) : List PixelOp → Option Pixel
  | [] => some p
  | op :: ops =>
    match p.applyOp op with
    | none => none
    | some q => q.runOps ops

/-! ## Vertex-buffer attribute layout (`src/vertex.rs`) -/

/-- `mem::size_of::<GLfloat>()`: 4 bytes. -/
def glFloatSize : Nat := 4

/-- The OpenGL constant `gl::FLOAT` (`0x1406`). -/
def glFLOAT : Nat := 5126

/-- One `gl::VertexAttribPointer` call, recorded as data: the arguments
`VertexBuffer::add_attrib` passes to the driver. -/
structure AttribPointerCall where
  layout : Nat
  componentCount : Int
  glType : Nat
  normalized : Bool
  strideBytes : Int
  offsetBytes : Nat
deriving DecidableEq

/-- `VertexBuffer::add_attrib` from `src/vertex.rs`, as the
`gl::VertexAttribPointer` call it makes: it passes `layout`,
`component_count`, `gl::FLOAT`, `gl::FALSE`, the stride scaled by
`mem::size_of::<GLfloat>()`, and the offset scaled by
`mem::size_of::<GLfloat>()` (as the byte-offset pointer).  The following
`gl::EnableVertexAttribArray(layout)` call is not recorded.  The source's
`stride * 4` is an **`i32`** multiply, which overflows once
`stride ≥ 2^29` (panicking in debug builds, wrapping in release builds),
while this model multiplies over unbounded `ℤ`; the theorems below
therefore quantify only over slices whose total count is below `2^29`,
where the `i32` product cannot overflow and the model agrees with the
source in both build profiles. -/
def addAttrib (layout : Nat) (componentCount stride : Int) (offset : Nat) :
    AttribPointerCall :=
  { layout := layout
    componentCount := componentCount
    glType := glFLOAT
    normalized := false
    strideBytes := stride * (glFloatSize : Int)
    offsetBytes := offset * glFloatSize }

/-- The loop of `VertexBuffer::set_layout` from `src/vertex.rs`: for each
entry `c` (with running layout index and offset) it evaluates
`u32::try_from(layout).unwrap()` (panic, before the call, when
`layout ≥ 2^32`), calls `add_attrib(layout, c, stride, offset)`, and then
evaluates `offset += usize::try_from(c).unwrap()` — which panics, **after**
the call, when `c < 0`.  Returns the calls made and whether the loop
completed without panicking. -/
def setLayoutAux (stride : Int) :
    List Int → Nat → Nat → List AttribPointerCall × Bool
  | [], _, _ => ([], true)
  | c :: rest, layout, offset =>
    if layout ≥ 2 ^ 32 then ([], false)
    else
      let call := addAttrib layout c stride offset
      if c < 0 then ([call], false)
      else
        let r := setLayoutAux stride rest (layout + 1) (offset + c.toNat)
        (call :: r.1, r.2)

/-- `VertexBuffer::set_layout` from `src/vertex.rs`:
`stride = component_counts.iter().sum()` (mathematical sum here; `i32`
overflow of the sum is outside the region the theorems quantify over), then
the loop of `setLayoutAux` starting at layout `0` and offset `0`. -/
def setLayout (componentCounts : List Int) : List AttribPointerCall × Bool :=
  setLayoutAux componentCounts.sum componentCounts 0 0

/-! ## Shader compilation and linking (`src/shader.rs`) -/

/-- The OpenGL constant `gl::TRUE` as a `GLint`. -/
def glTRUE : Int := 1

/-- What the OpenGL driver does with the one shader `Shader::load_str`
creates: the id `gl::CreateShader` returns, the `GLint` that
`gl::GetShaderiv(gl::COMPILE_STATUS)` writes back, and the decoded content
of the 1023-byte info-log buffer after `gl::GetShaderInfoLog`
(`String::from_utf8_lossy` of the buffer; bytes past what the driver wrote
are unspecified and therefore part of the oracle). -/
structure GlShaderOracle where
  createdId : Nat
  compileStatus : Int
  infoLog : String

/-- Rust's `str::split_once('\0')`, keeping only the part before the first
NUL: `some` of the prefix when a NUL character occurs in `s`, `none`
otherwise. -/
def splitBeforeNul (s : String) : Option String :=
  let pre := s.toList.takeWhile fun c => c ≠ Char.ofNat 0
  if pre.length = s.toList.length then none else some (String.mk pre)

/-- `Shader::load_str` from `src/shader.rs`.  Source shape:
`gl::CreateShader`, then `CString::new(source)` — which fails (mapped into
an `Err` by `?`) exactly when `source` has an interior NUL byte — then
`gl::ShaderSource` / `gl::CompileShader`, then
`gl::GetShaderiv(COMPILE_STATUS)`.  If the status is not `gl::TRUE` it reads
the info log, takes the text before the first NUL with
`split_once('\0').expect(...)` — panicking (`none` here) when the buffer has
no NUL — and returns `Err("Realms: failed to compile shader: " + log)`;
otherwise `Ok(Shader { gl_id })`.  (The exact `NulError` text interpolated
into the CString error message is not modelled.) -/
def Shader.loadStr (o : GlShaderOracle) (source : String) :
    Option (Except String Nat) :=
  if source.toList.contains (Char.ofNat 0) then
    some (Except.error "Realms: failed to create CString from shader source")
  else if o.compileStatus ≠ glTRUE then
    match splitBeforeNul o.infoLog with
    | some pre =>
      some (Except.error ("Realms: failed to compile shader: " ++ pre))
    | none => none
  else
    some (Except.ok o.createdId)

/-- What the OpenGL driver does with the one program `ShaderProgram::new`
creates: the id `gl::CreateProgram` returns, the `GLint` that
`gl::GetProgramiv(gl::LINK_STATUS)` writes back, and the outcome of
`core::str::from_utf8` on the 1023-byte info-log buffer after
`gl::GetProgramInfoLog` (`Except.ok` the decoded string, or `Except.error`
the rendered `Utf8Error` when the buffer is not valid UTF-8; bytes past what
the driver wrote are unspecified and therefore part of the oracle). -/
structure GlProgramOracle where
  createdId : Nat
  linkStatus : Int
  linkLogUtf8 : Except String String

/-- The observable outcome of `ShaderProgram::new`: the
`gl::AttachShader(program, shader)` calls made, the `gl::DeleteShader`
calls made, and the returned `Result`. -/
structure ProgramNewResult where
  attachCalls : List (Nat × Nat)
  deleteCalls : List Nat
  result : Except String Nat

/-- `ShaderProgram::new` from `src/shader.rs`, over a list of shader ids
(the `gl_id` fields of the `Vec<Shader>` argument).  Source shape:
`gl::CreateProgram`; `gl::AttachShader` for every shader;
`gl::LinkProgram`; `gl::GetProgramiv(LINK_STATUS)`.  If the status is not
`gl::TRUE` it returns early — deleting nothing — with
`Err("Realms: failed to link shader program: " + str::from_utf8(buffer)?)`,
where a UTF-8 decode failure is itself returned as the `Err` string by `?`
(via `map_err(|e| e.to_string())`).  Otherwise it deletes every shader and
returns `Ok(ShaderProgram { gl_id })`. -/
def ShaderProgram.new (o : GlProgramOracle) (shaders : List Nat) :
    ProgramNewResult :=
  let attach := shaders.map fun s => (o.createdId, s)
  if o.linkStatus ≠ glTRUE then
    { attachCalls := attach
      deleteCalls := []
      result := Except.error
        (match o.linkLogUtf8 with
         | Except.ok s => "Realms: failed to link shader program: " ++ s
         | Except.error e => e) }
  else
    { attachCalls := attach
      deleteCalls := shaders
      result := Except.ok o.createdId }

end Realms

/-! ## The windowing backend's event types (the `glfw` crate) -/

namespace Glfw

/-- `f64` event payloads (scroll distances, cursor positions).  `realms`
passes them through untouched, so the exact carrier is irrelevant; `ℚ` is
used as the stand-in for `f64`. -/
abbrev F64 := ℚ

/-- `f32` event payloads (content scale).  Passed through untouched. -/
abbrev F32 := ℚ

/-- `std::path::PathBuf`, as carried by `FileDrop` events.  Passed through
untouched; modelled as `String`. -/
abbrev PathBuf := String

/-- `glfw::Scancode` (`c_int`). -/
abbrev Scancode := Int

/-- `glfw::Modifiers` (a `c_int` bitflags value, modelled as its raw
bits). -/
abbrev Modifiers := Nat

/-- `glfw::Action`. -/
inductive Action where
  | Release
  | Press
  | Repeat
deriving DecidableEq

/-- `glfw::MouseButton`: the eight GLFW mouse buttons (`Button1` is left,
`Button2` right, `Button3` middle). -/
inductive MouseButton where
  | Button1
  | Button2
  | Button3
  | Button4
  | Button5
  | Button6
  | Button7
  | Button8
deriving DecidableEq

/-- The `glfw::Key` enum of the glfw crate (the windowing backend): every key
variant carries the GLFW keycode as its discriminant, plus `Unknown = -1`. -/
inductive Key where
  | Space
  | Apostrophe
  | Comma
  | Minus
  | Period
  | Slash
  | Num0
  | Num1
  | Num2
  | Num3
  | Num4
  | Num5
  | Num6
  | Num7
  | Num8
  | Num9
  | Semicolon
  | Equal
  | A
  | B
  | C
  | D
  | E
  | F
  | G
  | H
  | I
  | J
  | K
  | L
  | M
  | N
  | O
  | P
  | Q
  | R
  | S
  | T
  | U
  | V
  | W
  | X
  | Y
  | Z
  | LeftBracket
  | Backslash
  | RightBracket
  | GraveAccent
  | World1
  | World2
  | Escape
  | Enter
  | Tab
  | Backspace
  | Insert
  | Delete
  | Right
  | Left
  | Down
  | Up
  | PageUp
  | PageDown
  | Home
  | End
  | CapsLock
  | ScrollLock
  | NumLock
  | PrintScreen
  | Pause
  | F1
  | F2
  | F3
  | F4
  | F5
  | F6
  | F7
  | F8
  | F9
  | F10
  | F11
  | F12
  | F13
  | F14
  | F15
  | F16
  | F17
  | F18
  | F19
  | F20
  | F21
  | F22
  | F23
  | F24
  | F25
  | Kp0
  | Kp1
  | Kp2
  | Kp3
  | Kp4
  | Kp5
  | Kp6
  | Kp7
  | Kp8
  | Kp9
  | KpDecimal
  | KpDivide
  | KpMultiply
  | KpSubtract
  | KpAdd
  | KpEnter
  | KpEqual
  | LeftShift
  | LeftControl
  | LeftAlt
  | LeftSuper
  | RightShift
  | RightControl
  | RightAlt
  | RightSuper
  | Menu
  | Unknown
deriving DecidableEq

/-- Discriminant (GLFW keycode) of each `glfw::Key` variant; `Unknown` is `-1`. -/
def Key.code : Key → Int
  | .Space => 32
  | .Apostrophe => 39
  | .Comma => 44
  | .Minus => 45
  | .Period => 46
  | .Slash => 47
  | .Num0 => 48
  | .Num1 => 49
  | .Num2 => 50
  | .Num3 => 51
  | .Num4 => 52
  | .Num5 => 53
  | .Num6 => 54
  | .Num7 => 55
  | .Num8 => 56
  | .Num9 => 57
  | .Semicolon => 59
  | .Equal => 61
  | .A => 65
  | .B => 66
  | .C => 67
  | .D => 68
  | .E => 69
  | .F => 70
  | .G => 71
  | .H => 72
  | .I => 73
  | .J => 74
  | .K => 75
  | .L => 76
  | .M => 77
  | .N => 78
  | .O => 79
  | .P => 80
  | .Q => 81
  | .R => 82
  | .S => 83
  | .T => 84
  | .U => 85
  | .V => 86
  | .W => 87
  | .X => 88
  | .Y => 89
  | .Z => 90
  | .LeftBracket => 91
  | .Backslash => 92
  | .RightBracket => 93
  | .GraveAccent => 96
  | .World1 => 161
  | .World2 => 162
  | .Escape => 256
  | .Enter => 257
  | .Tab => 258
  | .Backspace => 259
  | .Insert => 260
  | .Delete => 261
  | .Right => 262
  | .Left => 263
  | .Down => 264
  | .Up => 265
  | .PageUp => 266
  | .PageDown => 267
  | .Home => 268
  | .End => 269
  | .CapsLock => 280
  | .ScrollLock => 281
  | .NumLock => 282
  | .PrintScreen => 283
  | .Pause => 284
  | .F1 => 290
  | .F2 => 291
  | .F3 => 292
  | .F4 => 293
  | .F5 => 294
  | .F6 => 295
  | .F7 => 296
  | .F8 => 297
  | .F9 => 298
  | .F10 => 299
  | .F11 => 300
  | .F12 => 301
  | .F13 => 302
  | .F14 => 303
  | .F15 => 304
  | .F16 => 305
  | .F17 => 306
  | .F18 => 307
  | .F19 => 308
  | .F20 => 309
  | .F21 => 310
  | .F22 => 311
  | .F23 => 312
  | .F24 => 313
  | .F25 => 314
  | .Kp0 => 320
  | .Kp1 => 321
  | .Kp2 => 322
  | .Kp3 => 323
  | .Kp4 => 324
  | .Kp5 => 325
  | .Kp6 => 326
  | .Kp7 => 327
  | .Kp8 => 328
  | .Kp9 => 329
  | .KpDecimal => 330
  | .KpDivide => 331
  | .KpMultiply => 332
  | .KpSubtract => 333
  | .KpAdd => 334
  | .KpEnter => 335
  | .KpEqual => 336
  | .LeftShift => 340
  | .LeftControl => 341
  | .LeftAlt => 342
  | .LeftSuper => 343
  | .RightShift => 344
  | .RightControl => 345
  | .RightAlt => 346
  | .RightSuper => 347
  | .Menu => 348
  | .Unknown => -1

/-- `glfw::WindowEvent`: every window-event variant of the glfw crate, with
its payload. -/
inductive WindowEvent where
  | Pos (x y : Int)
  | Size (width height : Int)
  | Close
  | Refresh
  | Focus (focused : Bool)
  | Iconify (iconified : Bool)
  | FramebufferSize (width height : Int)
  | MouseButton (button : MouseButton) (action : Action) (modifiers : Modifiers)
  | CursorPos (x y : F64)
  | CursorEnter (entered : Bool)
  | Scroll (x y : F64)
  | Key (key : Key) (scancode : Scancode) (action : Action) (modifiers : Modifiers)
  | Char (ch : Char)
  | CharModifiers (ch : Char) (modifiers : Modifiers)
  | FileDrop (paths : List PathBuf)
  | Maximize (maximized : Bool)
  | ContentScale (x y : F32)
deriving DecidableEq

end Glfw

/-! ## Event translation (`src/input.rs`) -/

namespace Realms

/-- The realms `Key` enum from `src/input.rs`: `#[repr(usize)]`, each variant
with the GLFW keycode as its explicit discriminant. -/
inductive Key where
  | Space
  | Apostrophe
  | Comma
  | Minus
  | Period
  | Slash
  | Num0
  | Num1
  | Num2
  | Num3
  | Num4
  | Num5
  | Num6
  | Num7
  | Num8
  | Num9
  | Semicolon
  | Equal
  | A
  | B
  | C
  | D
  | E
  | F
  | G
  | H
  | I
  | J
  | K
  | L
  | M
  | N
  | O
  | P
  | Q
  | R
  | S
  | T
  | U
  | V
  | W
  | X
  | Y
  | Z
  | LeftBracket
  | Backslash
  | RightBracket
  | GraveAccent
  | World1
  | World2
  | Escape
  | Enter
  | Tab
  | Backspace
  | Insert
  | Delete
  | Right
  | Left
  | Down
  | Up
  | PageUp
  | PageDown
  | Home
  | End
  | CapsLock
  | ScrollLock
  | NumLock
  | PrintScreen
  | Pause
  | F1
  | F2
  | F3
  | F4
  | F5
  | F6
  | F7
  | F8
  | F9
  | F10
  | F11
  | F12
  | F13
  | F14
  | F15
  | F16
  | F17
  | F18
  | F19
  | F20
  | F21
  | F22
  | F23
  | F24
  | F25
  | Keypad0
  | Keypad1
  | Keypad2
  | Keypad3
  | Keypad4
  | Keypad5
  | Keypad6
  | Keypad7
  | Keypad8
  | Keypad9
  | KeypadDecimal
  | KeypadDivide
  | KeypadMultiply
  | KeypadSubtract
  | KeypadAdd
  | KeypadEnter
  | KeypadEqual
  | LeftShift
  | LeftControl
  | LeftAlt
  | LeftSuper
  | RightShift
  | RightControl
  | RightAlt
  | RightSuper
  | Menu
deriving DecidableEq

/-- The `#[repr(usize)]` discriminant of each realms `Key` variant, as declared
in `src/input.rs` (`Space = 32`, ..., `Menu = 348`). -/
def Key.keycode : Key → Nat
  | .Space => 32
  | .Apostrophe => 39
  | .Comma => 44
  | .Minus => 45
  | .Period => 46
  | .Slash => 47
  | .Num0 => 48
  | .Num1 => 49
  | .Num2 => 50
  | .Num3 => 51
  | .Num4 => 52
  | .Num5 => 53
  | .Num6 => 54
  | .Num7 => 55
  | .Num8 => 56
  | .Num9 => 57
  | .Semicolon => 59
  | .Equal => 61
  | .A => 65
  | .B => 66
  | .C => 67
  | .D => 68
  | .E => 69
  | .F => 70
  | .G => 71
  | .H => 72
  | .I => 73
  | .J => 74
  | .K => 75
  | .L => 76
  | .M => 77
  | .N => 78
  | .O => 79
  | .P => 80
  | .Q => 81
  | .R => 82
  | .S => 83
  | .T => 84
  | .U => 85
  | .V => 86
  | .W => 87
  | .X => 88
  | .Y => 89
  | .Z => 90
  | .LeftBracket => 91
  | .Backslash => 92
  | .RightBracket => 93
  | .GraveAccent => 96
  | .World1 => 161
  | .World2 => 162
  | .Escape => 256
  | .Enter => 257
  | .Tab => 258
  | .Backspace => 259
  | .Insert => 260
  | .Delete => 261
  | .Right => 262
  | .Left => 263
  | .Down => 264
  | .Up => 265
  | .PageUp => 266
  | .PageDown => 267
  | .Home => 268
  | .End => 269
  | .CapsLock => 280
  | .ScrollLock => 281
  | .NumLock => 282
  | .PrintScreen => 283
  | .Pause => 284
  | .F1 => 290
  | .F2 => 291
  | .F3 => 292
  | .F4 => 293
  | .F5 => 294
  | .F6 => 295
  | .F7 => 296
  | .F8 => 297
  | .F9 => 298
  | .F10 => 299
  | .F11 => 300
  | .F12 => 301
  | .F13 => 302
  | .F14 => 303
  | .F15 => 304
  | .F16 => 305
  | .F17 => 306
  | .F18 => 307
  | .F19 => 308
  | .F20 => 309
  | .F21 => 310
  | .F22 => 311
  | .F23 => 312
  | .F24 => 313
  | .F25 => 314
  | .Keypad0 => 320
  | .Keypad1 => 321
  | .Keypad2 => 322
  | .Keypad3 => 323
  | .Keypad4 => 324
  | .Keypad5 => 325
  | .Keypad6 => 326
  | .Keypad7 => 327
  | .Keypad8 => 328
  | .Keypad9 => 329
  | .KeypadDecimal => 330
  | .KeypadDivide => 331
  | .KeypadMultiply => 332
  | .KeypadSubtract => 333
  | .KeypadAdd => 334
  | .KeypadEnter => 335
  | .KeypadEqual => 336
  | .LeftShift => 340
  | .LeftControl => 341
  | .LeftAlt => 342
  | .LeftSuper => 343
  | .RightShift => 344
  | .RightControl => 345
  | .RightAlt => 346
  | .RightSuper => 347
  | .Menu => 348

/-- Rust's `as usize` cast of an enum discriminant read as an integer:
reduction modulo `2^64`.  `glfw::Key::Unknown as usize` is
`2^64 - 1`. -/
def usizeOfInt (i : Int) : Nat :=
  (i % (2 ^ 64 : Int)).toNat

/-- The meaning of `mem::transmute::<usize, Key>(n)` on the `#[repr(usize)]`
enum `Key`: the unique variant whose discriminant is `n` when there is one,
and `none` — undefined behaviour, documented in the source as a segfault —
when `n` is not the discriminant of any variant. -/
def Key.ofDiscriminant : Nat → Option Key
  | 32 => some .Space
  | 39 => some .Apostrophe
  | 44 => some .Comma
  | 45 => some .Minus
  | 46 => some .Period
  | 47 => some .Slash
  | 48 => some .Num0
  | 49 => some .Num1
  | 50 => some .Num2
  | 51 => some .Num3
  | 52 => some .Num4
  | 53 => some .Num5
  | 54 => some .Num6
  | 55 => some .Num7
  | 56 => some .Num8
  | 57 => some .Num9
  | 59 => some .Semicolon
  | 61 => some .Equal
  | 65 => some .A
  | 66 => some .B
  | 67 => some .C
  | 68 => some .D
  | 69 => some .E
  | 70 => some .F
  | 71 => some .G
  | 72 => some .H
  | 73 => some .I
  | 74 => some .J
  | 75 => some .K
  | 76 => some .L
  | 77 => some .M
  | 78 => some .N
  | 79 => some .O
  | 80 => some .P
  | 81 => some .Q
  | 82 => some .R
  | 83 => some .S
  | 84 => some .T
  | 85 => some .U
  | 86 => some .V
  | 87 => some .W
  | 88 => some .X
  | 89 => some .Y
  | 90 => some .Z
  | 91 => some .LeftBracket
  | 92 => some .Backslash
  | 93 => some .RightBracket
  | 96 => some .GraveAccent
  | 161 => some .World1
  | 162 => some .World2
  | 256 => some .Escape
  | 257 => some .Enter
  | 258 => some .Tab
  | 259 => some .Backspace
  | 260 => some .Insert
  | 261 => some .Delete
  | 262 => some .Right
  | 263 => some .Left
  | 264 => some .Down
  | 265 => some .Up
  | 266 => some .PageUp
  | 267 => some .PageDown
  | 268 => some .Home
  | 269 => some .End
  | 280 => some .CapsLock
  | 281 => some .ScrollLock
  | 282 => some .NumLock
  | 283 => some .PrintScreen
  | 284 => some .Pause
  | 290 => some .F1
  | 291 => some .F2
  | 292 => some .F3
  | 293 => some .F4
  | 294 => some .F5
  | 295 => some .F6
  | 296 => some .F7
  | 297 => some .F8
  | 298 => some .F9
  | 299 => some .F10
  | 300 => some .F11
  | 301 => some .F12
  | 302 => some .F13
  | 303 => some .F14
  | 304 => some .F15
  | 305 => some .F16
  | 306 => some .F17
  | 307 => some .F18
  | 308 => some .F19
  | 309 => some .F20
  | 310 => some .F21
  | 311 => some .F22
  | 312 => some .F23
  | 313 => some .F24
  | 314 => some .F25
  | 320 => some .Keypad0
  | 321 => some .Keypad1
  | 322 => some .Keypad2
  | 323 => some .Keypad3
  | 324 => some .Keypad4
  | 325 => some .Keypad5
  | 326 => some .Keypad6
  | 327 => some .Keypad7
  | 328 => some .Keypad8
  | 329 => some .Keypad9
  | 330 => some .KeypadDecimal
  | 331 => some .KeypadDivide
  | 332 => some .KeypadMultiply
  | 333 => some .KeypadSubtract
  | 334 => some .KeypadAdd
  | 335 => some .KeypadEnter
  | 336 => some .KeypadEqual
  | 340 => some .LeftShift
  | 341 => some .LeftControl
  | 342 => some .LeftAlt
  | 343 => some .LeftSuper
  | 344 => some .RightShift
  | 345 => some .RightControl
  | 346 => some .RightAlt
  | 347 => some .RightSuper
  | 348 => some .Menu
  | _ => none

/-- `Key::from_glfw` from `src/input.rs`:
`unsafe { mem::transmute(glfw_key as usize) }`.  The source comments:
"KNOWN CRASHES: This function is known to SEGFAULT if the key is not known
by the glfw ffi bindings." -/
def Key.fromGlfw (glfwKey : Glfw.Key) : Option Key :=
  Key.ofDiscriminant (usizeOfInt glfwKey.code)

/-- The realms `MouseButton` enum from `src/input.rs`. -/
inductive MouseButton where
  | Left
  | Middle
  | Right
  | Other
deriving DecidableEq

/-- `MouseButton::from_glfw` from `src/input.rs`: `Button1`/`Button2`/
`Button3` become `Left`/`Right`/`Middle`, every other button becomes
`Other`. -/
def MouseButton.fromGlfw : Glfw.MouseButton → MouseButton
  | .Button1 => .Left
  | .Button2 => .Right
  | .Button3 => .Middle
  | _ => .Other

/-- The realms `Event` enum from `src/input.rs`. -/
inductive Event where
  | Close
  | KeyDown (key : Key)
  | KeyUp (key : Key)
  | KeyRepeat (key : Key)
  | RefreshWindow
  | ResizeWindow (width height : Int)
  | MoveWindow (x y : Int)
  | TypeChar (ch : Char)
  | Scroll (x y : Glfw.F64)
  | DropFiles (paths : List Glfw.PathBuf)
  | MoveMouse (x y : Glfw.F64)
  | Focus
  | Unfocus
  | CursorEnter
  | CursorExit
  | MouseDown (button : MouseButton)
  | MouseUp (button : MouseButton)
  | Other (event : Glfw.WindowEvent)
deriving DecidableEq

/-- `Event::from_glfw` from `src/input.rs`, arm for arm.  The only
non-total step is the `unsafe` `Key::from_glfw` transmute inside the
`glfw::WindowEvent::Key` arm, so the result is `none` (undefined
behaviour) exactly when that arm meets a key with no realms
discriminant. -/
def Event.fromGlfw : Glfw.WindowEvent → Option Event
  | .Close => some .Close
  | .Refresh => some .RefreshWindow
  | .FramebufferSize width height => some (.ResizeWindow width height)
  | .Pos x y => some (.MoveWindow x y)
  | .Char ch => some (.TypeChar ch)
  | .Scroll sx sy => some (.Scroll sx sy)
  | .FileDrop fileBufs => some (.DropFiles fileBufs)
  | .CursorPos x y => some (.MoveMouse x y)
  | .Focus isFocused => some (if isFocused then .Focus else .Unfocus)
  | .CursorEnter justEntered =>
    some (if justEntered then .CursorEnter else .CursorExit)
  | .MouseButton glfwMouseButton action mods =>
    let mouseButton := MouseButton.fromGlfw glfwMouseButton
    match action with
    | .Press => some (.MouseDown mouseButton)
    | .Release => some (.MouseUp mouseButton)
    | .Repeat => some (.Other (.MouseButton glfwMouseButton action mods))
  | .Key glfwKey _scancode glfwAction _mods =>
    match Key.fromGlfw glfwKey with
    | none => none
    | some key =>
      match glfwAction with
      | .Press => some (.KeyDown key)
      | .Release => some (.KeyUp key)
      | .Repeat => some (.KeyRepeat key)
  | e => some (.Other e)

end Realms

/-! ## Theorems

From here on the file only proves properties of the definitions above.
The helper lemmas come first; each claim of the specification then gets
one theorem (with its witness or counterexample where one is due). -/

namespace Realms

/-- Casting a `u8`-ranged `Nat` through the modelled `f64`-to-`u8` cast is
the identity. -/
theorem f64ToU8_natCast (n : Nat) (h : n < 256) : f64ToU8 (n : ℚ) = n := by
  have h0 : ¬ ((n : ℚ) < 0) := by simp
  have hf : ((n : ℚ)).floor = (n : ℤ) := by
    have he : ((n : ℚ)).floor = ⌊(n : ℚ)⌋ := rfl
    rw [he, Int.floor_natCast]
  simp only [f64ToU8, h0, if_false, hf, Int.toNat_natCast]
  omega

end Realms

namespace Realms

/-- **C8.** `Color::add_layer` leaves the alpha channel of `self` unchanged
whenever `other.a` is not 255, and makes `self` equal to `other` in all four
channels whenever `other.a` is 255: the `*self = other` assignment (which
has no early return) followed by the blend with weight `1.0` still yields
exactly `other`'s channel values. -/
theorem C8_addLayer_alpha (self other : Color)
    (hr : other.r < 256) (hg : other.g < 256) (hb : other.b < 256) :
    (other.a ≠ 255 → (self.addLayer other).a = self.a) ∧
    (other.a = 255 → self.addLayer other = other) := by
  constructor
  · intro h
    simp [Color.addLayer, h]
  · intro h
    have e : ∀ c : Nat, c < 256 →
        f64ToU8 ((c : ℚ) * (1 - ((255 : Nat) : ℚ) / 255) +
          (c : ℚ) * (((255 : Nat) : ℚ) / 255)) = c := by
      intro c hc
      have hc' : ((c : ℚ) * (1 - ((255 : Nat) : ℚ) / 255) +
          (c : ℚ) * (((255 : Nat) : ℚ) / 255)) = (c : ℚ) := by
        push_cast; ring
      rw [hc', f64ToU8_natCast c hc]
    cases other with
    | mk r g b a =>
      simp only at h hr hg hb
      simp only [Color.addLayer, h, if_pos]
      simp only [Color.mk.injEq]
      exact ⟨e r hr, e g hg, e b hb, trivial⟩

/-- Witness for C8 at concrete colors: an opaque layer replaces the color
entirely, and a translucent layer leaves the alpha channel alone. -/
theorem C8_addLayer_alpha_witness :
    (Color.rgba 10 20 30 100).addLayer (Color.rgba 1 2 3 255) =
      Color.rgba 1 2 3 255 ∧
    ((Color.rgba 10 20 30 100).addLayer (Color.rgba 5 6 7 9)).a = 100 :=
  ⟨(C8_addLayer_alpha (Color.rgba 10 20 30 100) (Color.rgba 1 2 3 255)
      (by decide) (by decide) (by decide)).2 rfl,
   (C8_addLayer_alpha (Color.rgba 10 20 30 100) (Color.rgba 5 6 7 9)
      (by decide) (by decide) (by decide)).1 (by decide)⟩

/-- **C10.** A `Pixel`'s size is invariant: `get_size` returns `(1.0, 1.0)`
on every `Pixel`, both `set_size` and `change_size` panic for every
argument, and after any sequence of node-trait operations that completes
without panicking the size is still `(1.0, 1.0)`. -/
theorem C10_pixel_size_invariant :
    (∀ p : Pixel, p.getSize = (1, 1)) ∧
    (∀ (p : Pixel) (s : ℚ × ℚ), p.setSize s = none) ∧
    (∀ (p : Pixel) (d : ℚ × ℚ), p.changeSize d = none) ∧
    (∀ (p : Pixel) (ops : List PixelOp) (q : Pixel),
      p.runOps ops = some q → q.getSize = (1, 1)) :=
  ⟨fun _ => rfl, fun _ _ => rfl, fun _ _ => rfl, fun _ _ _ _ => rfl⟩

/-- Witness for C10: a concrete `Pixel` pushed through a concrete operation
sequence still reports size `(1.0, 1.0)`. -/
theorem C10_pixel_size_invariant_witness :
    (Pixel.mk (2, 3) (Color.rgb 1 2 3)).getSize = (1, 1) :=
  C10_pixel_size_invariant.2.2.2
    (Pixel.new (0, 0) Color.BLACK)
    [PixelOp.setPos (2, 3), PixelOp.setColor (Color.rgb 1 2 3)]
    (Pixel.mk (2, 3) (Color.rgb 1 2 3)) rfl

/-- **C9.** `Texture::get(x, y)` reads `pixels[y * width + x]` and panics
exactly when that flat index is out of bounds; a `Texture` built by
`Texture::load` has `width * height` row-major pixels, so on such textures
`get` never panics when `x < width` and `y < height`; and a call with
`x ≥ width` can still return without panicking, as on the witness texture
below. -/
theorem C9_texture_get :
    (∀ (t : Texture) (x y : Nat),
      (t.get x y = none ↔ t.pixels.length ≤ y * t.width + x) ∧
      (∀ c, t.get x y = some c ↔ t.pixels.get? (y * t.width + x) = some c)) ∧
    (∀ (img : Nat → Nat → Color) (w h : Nat),
      (Texture.load img w h).pixels.length = w * h) ∧
    (∀ (t : Texture) (x y : Nat),
      t.pixels.length = t.width * t.height →
      x < t.width → y < t.height → (t.get x y).isSome) ∧
    (∃ (t : Texture) (x y : Nat),
      t.pixels.length = t.width * t.height ∧ t.width ≤ x ∧ (t.get x y).isSome) := by
  refine ⟨fun t x y => ⟨List.get?_eq_none, fun c => Iff.rfl⟩, ?_, ?_, ?_⟩
  · intro img w h
    simp only [Texture.load, List.length_flatMap, List.map_map]
    have hc : (List.length ∘ fun y => List.map (fun x => img x y) (List.range w)) =
        fun _ => w := by
      funext y
      simp
    rw [hc, List.map_const', List.sum_replicate, smul_eq_mul, List.length_range,
      Nat.mul_comm]
  · intro t x y hlen hx hy
    have hidx : y * t.width + x < t.pixels.length := by
      rw [hlen]
      calc y * t.width + x < y * t.width + t.width := by omega
        _ = (y + 1) * t.width := by ring
        _ ≤ t.height * t.width := Nat.mul_le_mul_right _ (by omega)
        _ = t.width * t.height := Nat.mul_comm _ _
    rw [Texture.get, List.get?_eq_get hidx]
    rfl
  · exact ⟨Texture.mk 2 2 [Color.BLACK, Color.BLACK, Color.BLACK, Color.BLACK],
      2, 0, by decide, by decide, by decide⟩

/-- Witness for C9: on a concrete well-formed 2×2 texture, the in-bounds
read at `(1, 1)` does not panic. -/
theorem C9_texture_get_witness :
    ((Texture.mk 2 2 [Color.BLACK, Color.BLACK, Color.BLACK,
      Color.BLACK]).get 1 1).isSome :=
  C9_texture_get.2.2.1
    (Texture.mk 2 2 [Color.BLACK, Color.BLACK, Color.BLACK, Color.BLACK])
    1 1 rfl (by decide) (by decide)

end Realms

namespace Realms

/-- The loop of `set_layout`, on nonnegative counts whose layout indices
stay below `2^32`, completes and makes exactly one `add_attrib` call per
entry, with running layout index and prefix-sum offset. -/
theorem setLayoutAux_spec (counts : List Int) (stride : Int) :
    ∀ (layout offset : Nat), (∀ c ∈ counts, 0 ≤ c) →
    layout + counts.length ≤ 2 ^ 32 →
    setLayoutAux stride counts layout offset =
      ((List.range counts.length).map fun i =>
        addAttrib (layout + i) (counts.getD i 0) stride
          (offset + ((counts.take i).sum).toNat), true) := by
  induction counts with
  | nil => intro layout offset _ _; simp [setLayoutAux]
  | cons c rest ih =>
    intro layout offset h0 hl
    have hlay : ¬ (layout ≥ 2 ^ 32) := by
      simp only [List.length_cons] at hl
      omega
    have hc : ¬ (c < 0) := by
      have := h0 c (List.mem_cons_self c rest)
      omega
    rw [setLayoutAux, if_neg hlay, if_neg hc,
      ih (layout + 1) (offset + c.toNat)
        (fun d hd => h0 d (List.mem_cons_of_mem _ hd))
        (by simp only [List.length_cons] at hl; omega)]
    simp only [List.length_cons, List.range_succ_eq_map, List.map_cons,
      List.map_map, Prod.mk.injEq, List.cons.injEq, and_true]
    constructor
    · simp [addAttrib]
    · apply List.map_congr_left
      intro i _
      simp only [Function.comp]
      have htake : ((c :: rest).take (i + 1)).sum = c + (rest.take i).sum := by
        simp [List.take_succ_cons]
      have hrest : (0 : Int) ≤ (rest.take i).sum :=
        List.sum_nonneg fun d hd =>
          h0 d (List.mem_cons_of_mem _ (List.mem_of_mem_take hd))
      have hco : (c + (rest.take i).sum).toNat = c.toNat + ((rest.take i).sum).toNat := by
        omega
      rw [htake]
      simp only [List.getD_cons_succ]
      rw [hco]
      congr 1
      · omega
      · omega

/-- **C5 (amended).** For every slice of *nonnegative* component counts
(within the `u32` layout-index range, and with total count below `2^29` so
that neither the `i32` sum nor the `i32` byte stride `sum * 4` computed by
`add_attrib` can overflow — the region where this model's mathematical
arithmetic agrees with Rust's in both build profiles), `set_layout` calls
`add_attrib` exactly once per entry, in order: the `i`-th call uses layout
index `i`, component count `c_i`, stride equal to the sum of all entries,
and offset equal to the prefix sum of the preceding entries — and
`add_attrib` scales the stride and the offset by the byte size of a
`GLfloat` (4) when passing them to `gl::VertexAttribPointer`. -/
theorem C5_setLayout (counts : List Int)
    (h0 : ∀ c ∈ counts, 0 ≤ c)
    (hlen : counts.length ≤ 2 ^ 32)
    (_hsum : counts.sum < 2 ^ 29) :
    (setLayout counts).2 = true ∧
    (setLayout counts).1.length = counts.length ∧
    ∀ i, i < counts.length →
      (setLayout counts).1.get? i = some
        { layout := i
          componentCount := counts.getD i 0
          glType := glFLOAT
          normalized := false
          strideBytes := counts.sum * (glFloatSize : Int)
          offsetBytes := ((counts.take i).sum).toNat * glFloatSize } := by
  have h := setLayoutAux_spec counts counts.sum 0 0 h0 (by simpa using hlen)
  rw [setLayout, h]
  refine ⟨rfl, by simp, ?_⟩
  intro i hi
  rw [List.get?_map, List.get?_range hi]
  simp [addAttrib]

/-- Witness for C5 (amended) on the concrete slice `[2, 4]`: two calls,
the second at layout 1, stride bytes `(2+4)*4 = 24`, offset bytes
`2*4 = 8`. -/
theorem C5_setLayout_witness :
    (setLayout [2, 4]).2 = true ∧
    (setLayout [2, 4]).1.length = 2 ∧
    (setLayout [2, 4]).1.get? 1 = some
      { layout := 1
        componentCount := 4
        glType := glFLOAT
        normalized := false
        strideBytes := 24
        offsetBytes := 8 } := by
  have h := C5_setLayout [2, 4] (by decide) (by decide) (by decide)
  refine ⟨h.1, h.2.1, ?_⟩
  rw [h.2.2 1 (by decide)]
  decide

/-- Counterexample to **C5** as stated (quantifying over *every* slice of
`i32` component counts): on the slice `[-1, 5]` the loop panics converting
`-1` to `usize` right after the first `add_attrib` call, so `add_attrib` is
called once, not once per entry. -/
theorem C5_counterexample :
    (setLayout [-1, 5]).1.length = 1 ∧
    ([-1, 5] : List Int).length = 2 ∧
    (setLayout [-1, 5]).2 = false := by decide

end Realms

namespace Realms

/-- **C6 (code bug).** `Rect::draw` clips the rect-local loop offsets
`(x, y)` against the window size instead of clipping the screen coordinates
`(pos.0 + x, pos.1 + y)` (its `x < 0 || y < 0` half is dead code, since the
loops start at 0).  Concretely, for the rect at position `(-5, 0)` of size
`(20, 1)` drawn on a `10×10` window: the pixel `(5, 0)` lies inside the
window and inside the rectangle (offset `x = 10`), yet no `set_pixel` call
targets it, because the offset `10` fails `x >= window_width`; meanwhile a
`set_pixel` call targets `(-5, 0)`, which lies left of the window.  The
claim that exactly the in-window part of the rectangle is written therefore
fails in both directions. -/
theorem C6_rect_draw_clip_bug :
    (∀ w ∈ rectDrawCalls (Rect.mk (-5, 0) (20, 1) (Color.rgb 9 9 9)) 10 10,
      ¬ (w.x = 5 ∧ w.y = 0)) ∧
    ((0 : Int) ≤ 5 ∧ (5 : Int) < 10 ∧ (0 : Int) ≤ 0 ∧ (0 : Int) < 10) ∧
    ((-5 : Int) + 10 = 5 ∧ (0 : Int) ≤ 10 ∧ (10 : Int) < 20) ∧
    (PixelWrite.mk (-5) 0 (Color.rgb 9 9 9) ∈
      rectDrawCalls (Rect.mk (-5, 0) (20, 1) (Color.rgb 9 9 9)) 10 10 ∧
      (-5 : Int) < 0) := by decide

/-- `Texture::get` succeeds at every in-bounds coordinate of a texture
whose pixel vector matches its dimensions. -/
theorem texture_get_some_of_inbounds (t : Texture) (x y : Nat)
    (h : t.pixels.length = t.width * t.height)
    (hx : x < t.width) (hy : y < t.height) : ∃ c, t.get x y = some c := by
  have hidx : y * t.width + x < t.pixels.length := by
    rw [h]
    calc y * t.width + x < y * t.width + t.width := by omega
      _ = (y + 1) * t.width := by ring
      _ ≤ t.height * t.width := Nat.mul_le_mul_right _ (by omega)
      _ = t.width * t.height := Nat.mul_comm _ _
  exact ⟨t.pixels.get ⟨y * t.width + x, hidx⟩, List.get?_eq_get hidx⟩

/-- The panic-propagating traversal collapses to a plain `map` when the
body succeeds on every element. -/
theorem writesAux_eq_map (l : List (Nat × Nat)) (f : Nat × Nat → Option PixelWrite)
    (g : Nat × Nat → PixelWrite) (h : ∀ p ∈ l, f p = some (g p)) :
    writesAux l f = some (l.map g) := by
  induction l with
  | nil => rfl
  | cons p ps ih =>
    rw [writesAux, h p (List.mem_cons_self p ps),
      ih fun q hq => h q (List.mem_cons_of_mem _ hq)]
    rfl

/-- **C7.** On every sprite whose texture is well-formed (its pixel vector
has `width * height` entries), `Sprite::draw` is a direct pixel blit: its
`set_pixel` call list is exactly one write per texel `(x, y)` with
`0 ≤ x < width`, `0 ≤ y < height`, at screen position
`(x + pos.x, y + pos.y)`, carrying the texture pixel `get(x, y)` — and
nothing else. -/
theorem C7_sprite_draw_blit (s : Sprite)
    (h : s.texture.pixels.length = s.texture.width * s.texture.height) :
    spriteDrawCalls s = some (spriteWritesList s) ∧
    (spriteWritesList s).length = s.texture.width * s.texture.height ∧
    (∀ w ∈ spriteWritesList s,
      ∃ x y, x < s.texture.width ∧ y < s.texture.height ∧
        s.texture.get x y = some w.color ∧
        w.x = Int.ofNat x + s.pos.1 ∧ w.y = Int.ofNat y + s.pos.2) := by
  have hmem : ∀ p ∈ texelList s.texture.width s.texture.height,
      p.1 < s.texture.width ∧ p.2 < s.texture.height := by
    intro p hp
    simp only [texelList, List.mem_flatMap, List.mem_map, List.mem_range] at hp
    obtain ⟨x, hx, y, hy, rfl⟩ := hp
    exact ⟨hx, hy⟩
  have hcall : ∀ p ∈ texelList s.texture.width s.texture.height,
      ((s.texture.get p.1 p.2).map fun c =>
        PixelWrite.mk (Int.ofNat p.1 + s.pos.1) (Int.ofNat p.2 + s.pos.2) c) =
      some (PixelWrite.mk (Int.ofNat p.1 + s.pos.1) (Int.ofNat p.2 + s.pos.2)
        ((s.texture.get p.1 p.2).getD Color.BLACK)) := by
    intro p hp
    obtain ⟨c, hc⟩ := texture_get_some_of_inbounds s.texture p.1 p.2 h
      (hmem p hp).1 (hmem p hp).2
    rw [hc]
    rfl
  refine ⟨?_, ?_, ?_⟩
  · rw [spriteDrawCalls, writesAux_eq_map _ _ _ hcall]
    congr 1
    simp only [texelList, spriteWritesList, List.map_flatMap, List.map_map]
    rfl
  · simp only [spriteWritesList, List.length_flatMap, List.map_map]
    have hc : (List.length ∘ fun x => List.map (fun y =>
        PixelWrite.mk (Int.ofNat x + s.pos.1) (Int.ofNat y + s.pos.2)
          ((s.texture.get x y).getD Color.BLACK)) (List.range s.texture.height)) =
        fun _ => s.texture.height := by
      funext x
      simp
    rw [hc, List.map_const', List.sum_replicate, smul_eq_mul, List.length_range]
  · intro w hw
    simp only [spriteWritesList, List.mem_flatMap, List.mem_map,
      List.mem_range] at hw
    obtain ⟨x, hx, y, hy, rfl⟩ := hw
    obtain ⟨c, hc⟩ := texture_get_some_of_inbounds s.texture x y h hx hy
    exact ⟨x, y, hx, hy, by rw [hc]; simp [hc], rfl, rfl⟩

/-- Witness for C7: the full call list of a concrete 2×1-texture sprite at
position `(3, 4)`. -/
theorem C7_sprite_draw_blit_witness :
    spriteDrawCalls (Sprite.mk (3, 4)
      (Texture.mk 2 1 [Color.rgb 1 0 0, Color.rgb 0 1 0])) =
    some (spriteWritesList (Sprite.mk (3, 4)
      (Texture.mk 2 1 [Color.rgb 1 0 0, Color.rgb 0 1 0]))) :=
  (C7_sprite_draw_blit
    (Sprite.mk (3, 4) (Texture.mk 2 1 [Color.rgb 1 0 0, Color.rgb 0 1 0]))
    (by decide)).1

end Realms

namespace Realms

/-- **C3 (amended).** `Shader::load_str` returns `Ok` with the created
shader's id when the driver reports compile status TRUE (and the source has
no interior NUL); when the status is not TRUE it returns `Err` embedding
the driver's own info-log text up to its first NUL — or panics when the
returned log buffer contains no NUL at all.  Its `Err` results on NUL-free
sources are therefore characterised by "status not TRUE and the log has a
NUL terminator"; an interior NUL in the source is a further `Err` case the
original claim does not cover (see the counterexample). -/
theorem C3_shader_loadStr (o : GlShaderOracle) (source : String)
    (hnul : source.toList.contains (Char.ofNat 0) = false) :
    (o.compileStatus = glTRUE →
      Shader.loadStr o source = some (Except.ok o.createdId)) ∧
    (o.compileStatus ≠ glTRUE →
      (∀ pre, splitBeforeNul o.infoLog = some pre →
        Shader.loadStr o source =
          some (Except.error ("Realms: failed to compile shader: " ++ pre))) ∧
      (splitBeforeNul o.infoLog = none → Shader.loadStr o source = none)) ∧
    ((∃ e, Shader.loadStr o source = some (Except.error e)) ↔
      (o.compileStatus ≠ glTRUE ∧ (splitBeforeNul o.infoLog).isSome)) := by
  have hnul' : Char.ofNat 0 ∉ source.data := by simpa using hnul
  refine ⟨?_, ?_, ?_, ?_⟩
  · intro hs
    simp [Shader.loadStr, hnul', hs]
  · intro hs
    constructor
    · intro pre hpre
      simp [Shader.loadStr, hnul', hs, hpre]
    · intro hpre
      simp [Shader.loadStr, hnul', hs, hpre]
  · rintro ⟨e, he⟩
    by_cases hs : o.compileStatus = glTRUE
    · simp [Shader.loadStr, hnul', hs] at he
    · rcases hsplit : splitBeforeNul o.infoLog with _ | pre
      · simp [Shader.loadStr, hnul', hs, hsplit] at he
      · exact ⟨hs, by simp [hsplit]⟩
  · rintro ⟨hs, hsome⟩
    rcases hsplit : splitBeforeNul o.infoLog with _ | pre
    · simp [hsplit] at hsome
    · exact ⟨"Realms: failed to compile shader: " ++ pre,
        by simp [Shader.loadStr, hnul', hs, hsplit]⟩

/-- Witness for C3 (amended) at concrete inputs: a successful compile
returns the created id, and a failed compile with log `"bad\0garbage"`
returns the driver's text before the NUL. -/
theorem C3_shader_loadStr_witness :
    Shader.loadStr (GlShaderOracle.mk 5 1 "") "void main()" =
      some (Except.ok 5) ∧
    Shader.loadStr (GlShaderOracle.mk 6 0 "bad\x00garbage") "void main()" =
      some (Except.error ("Realms: failed to compile shader: " ++ "bad")) :=
  ⟨(C3_shader_loadStr (GlShaderOracle.mk 5 1 "") "void main()"
      (by decide)).1 rfl,
   ((C3_shader_loadStr (GlShaderOracle.mk 6 0 "bad\x00garbage") "void main()"
      (by decide)).2.1 (by decide)).1 "bad" (by decide)⟩

/-- Counterexample to **C3** as stated ("`Err` if and only if the driver
reports the compile status as not TRUE"): on a source with an interior NUL
byte, `CString::new` fails and the function returns `Err` even though the
reported compile status is TRUE. -/
theorem C3_counterexample :
    Shader.loadStr (GlShaderOracle.mk 7 glTRUE "") "a\x00b" =
      some (Except.error "Realms: failed to create CString from shader source") ∧
    (GlShaderOracle.mk 7 glTRUE "").compileStatus = glTRUE := by
  constructor
  · simp [Shader.loadStr]
  · rfl

/-- **C4 (amended).** `ShaderProgram::new` attaches every shader in the
given vector to the newly created program and links it; it returns `Err`
if and only if the reported link status is not TRUE — the `Err` carrying
the driver's program info-log when the log buffer decodes as UTF-8, and
carrying the UTF-8 decode error instead when it does not — and on success
it deletes each attached shader and returns the linked program's id (on a
link failure nothing is deleted). -/
theorem C4_shaderProgram_new (o : GlProgramOracle) (shaders : List Nat) :
    ((ShaderProgram.new o shaders).attachCalls =
      shaders.map fun s => (o.createdId, s)) ∧
    (o.linkStatus = glTRUE →
      (ShaderProgram.new o shaders).result = Except.ok o.createdId ∧
      (ShaderProgram.new o shaders).deleteCalls = shaders) ∧
    (o.linkStatus ≠ glTRUE →
      (ShaderProgram.new o shaders).deleteCalls = [] ∧
      (∀ s, o.linkLogUtf8 = Except.ok s →
        (ShaderProgram.new o shaders).result =
          Except.error ("Realms: failed to link shader program: " ++ s)) ∧
      (∀ e, o.linkLogUtf8 = Except.error e →
        (ShaderProgram.new o shaders).result = Except.error e)) ∧
    ((∃ e, (ShaderProgram.new o shaders).result = Except.error e) ↔
      o.linkStatus ≠ glTRUE) := by
  by_cases hs : o.linkStatus = glTRUE
  · refine ⟨by simp [ShaderProgram.new, hs],
      fun _ => ⟨by simp [ShaderProgram.new, hs], by simp [ShaderProgram.new, hs]⟩,
      fun hne => absurd hs hne, ?_⟩
    constructor
    · rintro ⟨e, he⟩
      simp [ShaderProgram.new, hs] at he
    · intro hne
      exact absurd hs hne
  · refine ⟨by simp [ShaderProgram.new, hs], fun h => absurd h hs,
      fun _ => ⟨by simp [ShaderProgram.new, hs], ?_, ?_⟩, ?_⟩
    · intro t hlog
      simp [ShaderProgram.new, hs, hlog]
    · intro e hlog
      simp [ShaderProgram.new, hs, hlog]
    · refine ⟨fun _ => hs, fun _ => ?_⟩
      refine ⟨(match o.linkLogUtf8 with
        | Except.ok t => "Realms: failed to link shader program: " ++ t
        | Except.error e => e), ?_⟩
      simp [ShaderProgram.new, hs]

/-- Witness for C4 (amended) at concrete inputs: a successful link attaches
and then deletes both shaders and returns the program id; a failed link
with a decodable log embeds the log text. -/
theorem C4_shaderProgram_new_witness :
    (ShaderProgram.new (GlProgramOracle.mk 3 1 (Except.ok "log")) [7, 8]).result =
      Except.ok 3 ∧
    (ShaderProgram.new (GlProgramOracle.mk 3 1 (Except.ok "log")) [7, 8]).deleteCalls =
      [7, 8] ∧
    (ShaderProgram.new (GlProgramOracle.mk 4 0 (Except.ok "undefined symbol"))
      [9]).result =
      Except.error ("Realms: failed to link shader program: " ++ "undefined symbol") :=
  ⟨((C4_shaderProgram_new (GlProgramOracle.mk 3 1 (Except.ok "log")) [7, 8]).2.1 rfl).1,
   ((C4_shaderProgram_new (GlProgramOracle.mk 3 1 (Except.ok "log")) [7, 8]).2.1 rfl).2,
   ((C4_shaderProgram_new (GlProgramOracle.mk 4 0 (Except.ok "undefined symbol"))
      [9]).2.2.1 (by decide)).2.1 "undefined symbol" rfl⟩

/-- Counterexample to **C4** as stated ("returns Err *containing the
driver's program info-log* iff the link status is not TRUE"): when the link
fails but the 1023-byte log buffer is not valid UTF-8, the returned `Err`
is the rendered UTF-8 decode error, which is not of the info-log-carrying
form `"Realms: failed to link shader program: " ++ log` for any log. -/
theorem C4_counterexample :
    (ShaderProgram.new
      (GlProgramOracle.mk 3 0 (Except.error "invalid utf-8 sequence")) [7, 8]).result =
      Except.error "invalid utf-8 sequence" ∧
    (GlProgramOracle.mk 3 0
      (Except.error "invalid utf-8 sequence")).linkStatus ≠ glTRUE ∧
    ∀ s : String, "invalid utf-8 sequence" ≠
      "Realms: failed to link shader program: " ++ s := by
  refine ⟨by simp [ShaderProgram.new, glTRUE], by decide, ?_⟩
  intro s h
  have h2 : "invalid utf-8 sequence".data =
      ("Realms: failed to link shader program: " ++ s).data :=
    congrArg String.data h
  simp [String.data_append] at h2

end Realms

namespace Realms

/-- Every glfw key other than `Unknown` transmutes to the realms `Key`
variant with the same keycode: the two enums list exactly the same
discriminants apart from `Unknown = -1`. -/
theorem key_fromGlfw_total (g : Glfw.Key) (hg : g ≠ Glfw.Key.Unknown) :
    ∃ k : Key, Key.fromGlfw g = some k ∧ (k.keycode : Int) = g.code := by
  cases g
  case Unknown => exact absurd rfl hg
  all_goals exact ⟨_, rfl, rfl⟩

/-- **C2 (amended).** For every `glfw::Key` other than `Unknown`,
`Key::from_glfw` produces the valid realms `Key` variant with the same
keycode, and `Event::from_glfw` on any key event carrying such a key
returns a well-defined `Event`.  (For `Unknown` see the counterexample: the
transmute has no valid target and the source itself documents the crash.) -/
theorem C2_key_translation (g : Glfw.Key) (hg : g ≠ Glfw.Key.Unknown) :
    (∃ k : Key, Key.fromGlfw g = some k ∧ (k.keycode : Int) = g.code) ∧
    (∀ (sc : Glfw.Scancode) (a : Glfw.Action) (m : Glfw.Modifiers),
      (Event.fromGlfw (Glfw.WindowEvent.Key g sc a m)).isSome) := by
  obtain ⟨k, hk, hcode⟩ := key_fromGlfw_total g hg
  refine ⟨⟨k, hk, hcode⟩, ?_⟩
  intro sc a m
  cases a <;> simp [Event.fromGlfw, hk]

/-- Witness for C2 (amended) at the concrete key `A`. -/
theorem C2_key_translation_witness :
    (∃ k : Key, Key.fromGlfw Glfw.Key.A = some k ∧
      (k.keycode : Int) = Glfw.Key.code Glfw.Key.A) ∧
    (Event.fromGlfw
      (Glfw.WindowEvent.Key Glfw.Key.A 30 Glfw.Action.Press 0)).isSome :=
  ⟨(C2_key_translation Glfw.Key.A (by decide)).1,
   (C2_key_translation Glfw.Key.A (by decide)).2 30 Glfw.Action.Press 0⟩

/-- Counterexample to **C2** as stated ("for every value of `glfw::Key`,
including keys the library does not list, `Key::from_glfw` produces a valid
`Key` variant ... with no crash or undefined behaviour"):
`glfw::Key::Unknown` has discriminant `-1`, which `as usize` turns into
`2^64 - 1` — not the discriminant of any realms `Key` variant — so the
`mem::transmute` in `Key::from_glfw` has no valid target (undefined
behaviour; the source's own doc comment reports it as a known segfault). -/
theorem C2_counterexample : Key.fromGlfw Glfw.Key.Unknown = none := by decide

end Realms

namespace Realms

/-- **C1 (amended).** `Event::from_glfw` maps each supported backend
variant to its realms `Event` variant with its payload preserved (`Close`
to `Close`, `Refresh` to `RefreshWindow`, `FramebufferSize` to
`ResizeWindow`, `Pos` to `MoveWindow`, `Char` to `TypeChar`, `Scroll` to
`Scroll`, `FileDrop` to `DropFiles`, `CursorPos` to `MoveMouse`,
`Focus(true/false)` to `Focus`/`Unfocus`, `CursorEnter(true/false)` to
`CursorEnter`/`CursorExit`, mouse press/release to `MouseDown`/`MouseUp`
through `MouseButton::from_glfw`, key press/release/repeat — for keys the
realms `Key` enum lists, i.e. any `glfw::Key` except `Unknown` — to
`KeyDown`/`KeyUp`/`KeyRepeat` through `Key::from_glfw`), and every
unsupported event (including mouse-button repeat) to `Other` carrying the
original backend event.  The translation is, however, **not** one-to-one:
scancodes and modifiers are discarded, so distinct backend events can map
to the same `Event` (last conjunct). -/
theorem C1_event_translation (w h x y : Int) (ch : Char)
    (sx sy mx my : Glfw.F64) (files : List Glfw.PathBuf)
    (b : Glfw.MouseButton) (m : Glfw.Modifiers)
    (k : Glfw.Key) (sc : Glfw.Scancode) (hk : k ≠ Glfw.Key.Unknown) :
    Event.fromGlfw Glfw.WindowEvent.Close = some Event.Close ∧
    Event.fromGlfw Glfw.WindowEvent.Refresh = some Event.RefreshWindow ∧
    Event.fromGlfw (Glfw.WindowEvent.FramebufferSize w h) =
      some (Event.ResizeWindow w h) ∧
    Event.fromGlfw (Glfw.WindowEvent.Pos x y) = some (Event.MoveWindow x y) ∧
    Event.fromGlfw (Glfw.WindowEvent.Char ch) = some (Event.TypeChar ch) ∧
    Event.fromGlfw (Glfw.WindowEvent.Scroll sx sy) =
      some (Event.Scroll sx sy) ∧
    Event.fromGlfw (Glfw.WindowEvent.FileDrop files) =
      some (Event.DropFiles files) ∧
    Event.fromGlfw (Glfw.WindowEvent.CursorPos mx my) =
      some (Event.MoveMouse mx my) ∧
    Event.fromGlfw (Glfw.WindowEvent.Focus true) = some Event.Focus ∧
    Event.fromGlfw (Glfw.WindowEvent.Focus false) = some Event.Unfocus ∧
    Event.fromGlfw (Glfw.WindowEvent.CursorEnter true) =
      some Event.CursorEnter ∧
    Event.fromGlfw (Glfw.WindowEvent.CursorEnter false) =
      some Event.CursorExit ∧
    Event.fromGlfw (Glfw.WindowEvent.MouseButton b Glfw.Action.Press m) =
      some (Event.MouseDown (MouseButton.fromGlfw b)) ∧
    Event.fromGlfw (Glfw.WindowEvent.MouseButton b Glfw.Action.Release m) =
      some (Event.MouseUp (MouseButton.fromGlfw b)) ∧
    Event.fromGlfw (Glfw.WindowEvent.MouseButton b Glfw.Action.Repeat m) =
      some (Event.Other (Glfw.WindowEvent.MouseButton b Glfw.Action.Repeat m)) ∧
    (∃ rk : Key, Key.fromGlfw k = some rk ∧
      Event.fromGlfw (Glfw.WindowEvent.Key k sc Glfw.Action.Press m) =
        some (Event.KeyDown rk) ∧
      Event.fromGlfw (Glfw.WindowEvent.Key k sc Glfw.Action.Release m) =
        some (Event.KeyUp rk) ∧
      Event.fromGlfw (Glfw.WindowEvent.Key k sc Glfw.Action.Repeat m) =
        some (Event.KeyRepeat rk)) ∧
    (∀ ws hs : Int, Event.fromGlfw (Glfw.WindowEvent.Size ws hs) =
      some (Event.Other (Glfw.WindowEvent.Size ws hs))) ∧
    (∀ bi : Bool, Event.fromGlfw (Glfw.WindowEvent.Iconify bi) =
      some (Event.Other (Glfw.WindowEvent.Iconify bi))) ∧
    (∀ (c2 : Char) (m2 : Glfw.Modifiers),
      Event.fromGlfw (Glfw.WindowEvent.CharModifiers c2 m2) =
        some (Event.Other (Glfw.WindowEvent.CharModifiers c2 m2))) ∧
    (∀ bm : Bool, Event.fromGlfw (Glfw.WindowEvent.Maximize bm) =
      some (Event.Other (Glfw.WindowEvent.Maximize bm))) ∧
    (∀ fx fy : Glfw.F32, Event.fromGlfw (Glfw.WindowEvent.ContentScale fx fy) =
      some (Event.Other (Glfw.WindowEvent.ContentScale fx fy))) ∧
    (∃ e1 e2 : Glfw.WindowEvent, e1 ≠ e2 ∧
      Event.fromGlfw e1 = Event.fromGlfw e2) := by
  obtain ⟨rk, hrk, _⟩ := key_fromGlfw_total k hk
  refine ⟨rfl, rfl, rfl, rfl, rfl, rfl, rfl, rfl, rfl, rfl, rfl, rfl, rfl, rfl,
    rfl, ⟨rk, hrk, ?_, ?_, ?_⟩, fun _ _ => rfl, fun _ => rfl, fun _ _ => rfl,
    fun _ => rfl, fun _ _ => rfl,
    ⟨Glfw.WindowEvent.Key Glfw.Key.A 10 Glfw.Action.Press 0,
      Glfw.WindowEvent.Key Glfw.Key.A 11 Glfw.Action.Press 0, by decide, rfl⟩⟩
  all_goals simp [Event.fromGlfw, hrk]

/-- Witness for C1 (amended): two projections of the theorem at concrete
payloads. -/
theorem C1_event_translation_witness :
    Event.fromGlfw Glfw.WindowEvent.Close = some Event.Close ∧
    Event.fromGlfw (Glfw.WindowEvent.FramebufferSize 800 600) =
      some (Event.ResizeWindow 800 600) :=
  ⟨(C1_event_translation 800 600 1 2 (Char.ofNat 99)
      0 0 0 0 [] Glfw.MouseButton.Button1 0 Glfw.Key.A 30 (by decide)).1,
   (C1_event_translation 800 600 1 2 (Char.ofNat 99)
      0 0 0 0 [] Glfw.MouseButton.Button1 0 Glfw.Key.A 30 (by decide)).2.2.1⟩

/-- Counterexample to **C1**'s "one-to-one" clause: two distinct backend
key events — same key, different scancodes — translate to the same realms
`Event`, because `Event::from_glfw` discards the scancode. -/
theorem C1_counterexample :
    Event.fromGlfw (Glfw.WindowEvent.Key Glfw.Key.A 10 Glfw.Action.Press 0) =
      Event.fromGlfw (Glfw.WindowEvent.Key Glfw.Key.A 11 Glfw.Action.Press 0) ∧
    Glfw.WindowEvent.Key Glfw.Key.A 10 Glfw.Action.Press 0 ≠
      Glfw.WindowEvent.Key Glfw.Key.A 11 Glfw.Action.Press 0 :=
  ⟨rfl, by decide⟩

end Realms
